import Mathlib

/-!
Verification of the receive-and-decode core of `wifi_qos_gui.py`, a local
WiFi-telemetry display.  The program binds a non-blocking `AF_UNIX` datagram
socket, polls it on a tkinter timer, decodes 24-byte little-endian telemetry
records, computes derived metrics, and updates a label.

Shallow embedding conventions:
* a byte buffer is a `List Nat` whose entries are below 256;
* Python's `struct.unpack "<Q i I I I"` becomes `decode` built from a
  little-endian value reader `leVal` and a signed-32 reinterpretation;
* Python floats are modelled as exact rationals (`Rat`);
* the socket, the tkinter label, the scheduler and the process-exit calls are
  modelled by explicit state passing and event traces: each branch of the
  Python source contributes the events it performs, in source order.
-/

namespace WifiQos

/-- Little-endian value of a byte list: byte 0 is least significant.
Mirrors how `struct.unpack` with `<` reads a fixed-width field. -/
def leVal (bs : List Nat) : Nat :=
  bs.foldr (fun b acc => b + 256 * acc) 0

/-- Reinterpret an unsigned 32-bit value as the signed 32-bit integer with the
same bit pattern (two's complement), as `struct.unpack`'s `i` field does. -/
def toSigned32 (n : Nat) : Int :=
  if n < 2 ^ 31 then (n : Int) else (n : Int) - 2 ^ 32

/-- The 32-bit unsigned bit pattern of a signed integer: inverse of
`toSigned32` on in-range values (used by the matching encoder). -/
def fromSigned32 (i : Int) : Nat :=
  (i % (2 ^ 32 : Int)).toNat

/-- The decoded telemetry record (`ts_ns, rssi, ok, retry, fail` in
`poll_socket`): 8-byte unsigned timestamp, 4-byte signed RSSI, three 4-byte
unsigned counters. -/
structure TelemetrySample where
  ts_ns : Nat
  rssi : Int
  ok : Nat
  retry : Nat
  fail : Nat
deriving DecidableEq

/-- The decoder step of `poll_socket` (lines 75–77): if the datagram is
exactly 24 bytes, unpack `"<Q i I I I"` — five little-endian fields at
offsets 0, 8, 12, 16, 20 with no padding; any other length yields no sample. -/
def decode (data : List Nat) : Option TelemetrySample :=
  if data.length = 24 then
    some
      { ts_ns := leVal (data.take 8)
        rssi := toSigned32 (leVal ((data.drop 8).take 4))
        ok := leVal ((data.drop 12).take 4)
        retry := leVal ((data.drop 16).take 4)
        fail := leVal ((data.drop 20).take 4) }
  else
    none

/-- Little-endian encoding of a value into `n` bytes (the matching encoder
for the wire format, i.e. `struct.pack` with a fixed width). -/
def leBytes : Nat → Nat → List Nat
  | 0, _ => []
  | n + 1, v => v % 256 :: leBytes n (v / 256)

/-- The matching little-endian encoder: packs the five fields back into
24 bytes in the same order (`struct.pack "<Q i I I I"`). -/
def encode (s : TelemetrySample) : List Nat :=
  leBytes 8 s.ts_ns ++ leBytes 4 (fromSigned32 s.rssi) ++
    leBytes 4 s.ok ++ leBytes 4 s.retry ++ leBytes 4 s.fail

/-- Signal percentage from RSSI (lines 82–86): `2 * (rssi + 100)`, then
clamped above to 100 and below to 0, in that order. -/
def signal_pct (rssi : Int) : Int :=
  let p := 2 * (rssi + 100)
  let p1 := if p > 100 then 100 else p
  if p1 < 0 then 0 else p1

/-- Transmission efficiency (lines 78–79): `(ok / total) * 100` when
`total = ok + retry + fail` is nonzero, else `0.0`.  Python floats are
modelled as exact rationals. -/
def efficiency_percent (ok retry fail : Nat) : Rat :=
  let total := ok + retry + fail
  if total = 0 then 0 else ((ok : Rat) / (total : Rat)) * 100

/-- Helper: the length guard alone decides whether decoding yields a sample. -/
lemma decode_eq_none_of_length_ne {data : List Nat} (h : data.length ≠ 24) :
    decode data = none := by
  simp [decode, h]

lemma decode_isSome_iff (data : List Nat) :
    (decode data).isSome = true ↔ data.length = 24 := by
  by_cases h : data.length = 24
  · simp [decode, h]
  · simp [decode, h]

/-- A little-endian field value is bounded by `256 ^ width`. -/
lemma leVal_lt (bs : List Nat) (hb : ∀ b ∈ bs, b < 256) :
    leVal bs < 256 ^ bs.length := by
  induction bs with
  | nil => simp [leVal]
  | cons b t ih =>
    have hbb : b < 256 := hb b (List.mem_cons_self b t)
    have ht : ∀ x ∈ t, x < 256 := fun x hx => hb x (List.mem_cons_of_mem b hx)
    have hlt : leVal t < 256 ^ t.length := ih ht
    have hstep : leVal (b :: t) = b + 256 * leVal t := rfl
    calc leVal (b :: t) = b + 256 * leVal t := hstep
      _ < 256 * (leVal t + 1) := by omega
      _ ≤ 256 * 256 ^ t.length := by
          exact Nat.mul_le_mul_left 256 (Nat.succ_le_of_lt hlt)
      _ = 256 ^ (b :: t).length := by
          simp [List.length_cons, pow_succ, Nat.mul_comm]

/-- Re-encoding the little-endian value of a byte list at its own width
reproduces the list. -/
lemma leBytes_leVal (bs : List Nat) (hb : ∀ b ∈ bs, b < 256) :
    leBytes bs.length (leVal bs) = bs := by
  induction bs with
  | nil => rfl
  | cons b t ih =>
    have hbb : b < 256 := hb b (List.mem_cons_self b t)
    have ht : ∀ x ∈ t, x < 256 := fun x hx => hb x (List.mem_cons_of_mem b hx)
    have hv : leVal (b :: t) = b + 256 * leVal t := rfl
    have hmod : (b + 256 * leVal t) % 256 = b := by
      rw [Nat.add_mul_mod_self_left, Nat.mod_eq_of_lt hbb]
    have hdiv : (b + 256 * leVal t) / 256 = leVal t := by
      rw [Nat.add_mul_div_left b (leVal t) (by norm_num : 0 < 256),
        Nat.div_eq_of_lt hbb, Nat.zero_add]
    show leBytes (t.length + 1) (leVal (b :: t)) = b :: t
    rw [hv, leBytes, hmod, hdiv, ih ht]

/-- Signed reinterpretation round-trips on 32-bit values. -/
lemma fromSigned32_toSigned32 {n : Nat} (h : n < 2 ^ 32) :
    fromSigned32 (toSigned32 n) = n := by
  unfold fromSigned32 toSigned32
  split <;> omega

/-- Re-encoding a `k`-prefix of a byte list reproduces the prefix. -/
lemma leBytes_leVal_take (l : List Nat) (hb : ∀ b ∈ l, b < 256) (k : Nat)
    (hk : (l.take k).length = k) :
    leBytes k (leVal (l.take k)) = l.take k := by
  have := leBytes_leVal (l.take k) (fun b h => hb b (List.take_subset k l h))
  rwa [hk] at this

/-- The value of a 4-byte field fits in 32 bits. -/
lemma leVal_take4_lt (l : List Nat) (hb : ∀ b ∈ l, b < 256)
    (hk : (l.take 4).length = 4) : leVal (l.take 4) < 2 ^ 32 := by
  have := leVal_lt (l.take 4) (fun b h => hb b (List.take_subset 4 l h))
  rw [hk] at this
  omega

/-- Decoding a 24-byte buffer succeeds with the five fields read at offsets
0, 8, 12, 16, 20, and re-encoding reproduces the buffer. -/
lemma decode_encode (bs : List Nat) (hlen : bs.length = 24)
    (hb : ∀ b ∈ bs, b < 256) :
    ∃ s, decode bs = some s ∧ encode s = bs := by
  have hd : decode bs = some
      { ts_ns := leVal (bs.take 8)
        rssi := toSigned32 (leVal ((bs.drop 8).take 4))
        ok := leVal ((bs.drop 12).take 4)
        retry := leVal ((bs.drop 16).take 4)
        fail := leVal ((bs.drop 20).take 4) } := by
    simp [decode, hlen]
  refine ⟨_, hd, ?_⟩
  have hb8 : ∀ b ∈ bs.drop 8, b < 256 := fun b h => hb b (List.drop_subset 8 bs h)
  have hb12 : ∀ b ∈ bs.drop 12, b < 256 := fun b h => hb b (List.drop_subset 12 bs h)
  have hb16 : ∀ b ∈ bs.drop 16, b < 256 := fun b h => hb b (List.drop_subset 16 bs h)
  have hb20 : ∀ b ∈ bs.drop 20, b < 256 := fun b h => hb b (List.drop_subset 20 bs h)
  have h8 : (bs.take 8).length = 8 := by simp [List.length_take, hlen]
  have l8 : ((bs.drop 8).take 4).length = 4 := by
    simp [List.length_take, List.length_drop, hlen]
  have l12 : ((bs.drop 12).take 4).length = 4 := by
    simp [List.length_take, List.length_drop, hlen]
  have l16 : ((bs.drop 16).take 4).length = 4 := by
    simp [List.length_take, List.length_drop, hlen]
  have l20 : ((bs.drop 20).take 4).length = 4 := by
    simp [List.length_take, List.length_drop, hlen]
  have hsig : fromSigned32 (toSigned32 (leVal ((bs.drop 8).take 4)))
      = leVal ((bs.drop 8).take 4) :=
    fromSigned32_toSigned32 (leVal_take4_lt (bs.drop 8) hb8 l8)
  show leBytes 8 (leVal (bs.take 8)) ++
      leBytes 4 (fromSigned32 (toSigned32 (leVal ((bs.drop 8).take 4)))) ++
      leBytes 4 (leVal ((bs.drop 12).take 4)) ++
      leBytes 4 (leVal ((bs.drop 16).take 4)) ++
      leBytes 4 (leVal ((bs.drop 20).take 4)) = bs
  rw [hsig, leBytes_leVal_take bs hb 8 h8, leBytes_leVal_take (bs.drop 8) hb8 4 l8,
    leBytes_leVal_take (bs.drop 12) hb12 4 l12, leBytes_leVal_take (bs.drop 16) hb16 4 l16,
    leBytes_leVal_take (bs.drop 20) hb20 4 l20]
  have t20 : (bs.drop 20).take 4 = bs.drop 20 := by
    have h20 : (bs.drop 20).length = 4 := by simp [List.length_drop, hlen]
    rw [← h20]
    exact List.take_length (bs.drop 20)
  have s16 : (bs.drop 16).take 4 ++ bs.drop 20 = bs.drop 16 := by
    have hdd : (bs.drop 16).drop 4 = bs.drop 20 := by
      rw [List.drop_drop]
    rw [← hdd, List.take_append_drop]
  have s12 : (bs.drop 12).take 4 ++ bs.drop 16 = bs.drop 12 := by
    have hdd : (bs.drop 12).drop 4 = bs.drop 16 := by
      rw [List.drop_drop]
    rw [← hdd, List.take_append_drop]
  have s8 : (bs.drop 8).take 4 ++ bs.drop 12 = bs.drop 8 := by
    have hdd : (bs.drop 8).drop 4 = bs.drop 12 := by
      rw [List.drop_drop]
    rw [← hdd, List.take_append_drop]
  rw [t20]
  simp only [List.append_assoc]
  rw [s16, s12, s8, List.take_append_drop]

/-- Outcome of the non-blocking `sock.recvfrom(1024)` call: a datagram,
the would-block outcome (`BlockingIOError`), or any other OS-level receive
failure, carried with its error number. -/
inductive RecvResult where
  | wouldBlock : RecvResult
  | dgram (data : List Nat) : RecvResult
  | osErr (errno : Nat) : RecvResult
deriving DecidableEq

/-- Observable actions of one `poll_socket` call, in source order. -/
inductive PollEvent where
  | recvAttempt : PollEvent
  | labelUpdate : PollEvent
  | scheduleNext : PollEvent
  | exitProcess : PollEvent
deriving DecidableEq

/-- Result of one `poll_socket` call: the label text afterwards, whether an
exception escaped the call, and the trace of actions it performed. -/
structure PollResult where
  label : String
  raised : Bool
  events : List PollEvent
deriving DecidableEq

/-- One call of `poll_socket` (lines 58–105), with the tkinter label text as
explicit state.  `render` abstracts the f-string that formats the decoded
sample into the label text (lines 93–98); its content is irrelevant to the
claims.  Branches, in source order:
* `BlockingIOError` is caught (`pass`), so control reaches `root.after`;
* any other `OSError` from `recvfrom` matches no `except` clause and
  propagates out of the function, so `root.after` on line 105 never runs;
* a received datagram is decoded; a 24-byte one updates the label, any other
  length is ignored, and both reach `root.after`. -/
def poll_socket (render : TelemetrySample → String) (label : String)
    (r : RecvResult) : PollResult :=
  match r with
  | .wouldBlock =>
      { label := label, raised := false
        events := [.recvAttempt, .scheduleNext] }
  | .osErr _ =>
      { label := label, raised := true
        events := [.recvAttempt] }
  | .dgram data =>
      match decode data with
      | some s =>
          { label := render s, raised := false
            events := [.recvAttempt, .labelUpdate, .scheduleNext] }
      | none =>
          { label := label, raised := false
            events := [.recvAttempt, .scheduleNext] }

/-- The OS side of one `recvfrom` on a datagram socket: at most the first
queued datagram is taken; an empty queue would block. -/
def recv_from_queue (q : List (List Nat)) : RecvResult × List (List Nat) :=
  match q with
  | [] => (.wouldBlock, [])
  | d :: rest => (.dgram d, rest)

/-- Observable actions of module start-up, in source order. -/
inductive StartupEvent where
  | unlinkAttempt : StartupEvent
  | bindAttempt : StartupEvent
  | displayCreated : StartupEvent
deriving DecidableEq

/-- Result of module start-up: `exitCode = some c` means `sys.exit(c)` was
called; `events` is the trace of actions performed before that. -/
structure StartupResult where
  exitCode : Option Nat
  events : List StartupEvent
deriving DecidableEq

/-- Module start-up (lines 19–39): if a filesystem object exists at
`SOCK_PATH` it is unlinked, and a failing unlink prints to stderr and calls
`sys.exit(1)`; then the socket is bound, and a failing bind prints to stderr
and calls `sys.exit(1)`; only then is the tkinter window (`tk.Tk()`)
created.  The three environment flags say whether the path pre-exists and
whether `os.unlink` and `sock.bind` succeed. -/
def startup (pathExists unlinkOk bindOk : Bool) : StartupResult :=
  if pathExists then
    if unlinkOk then
      if bindOk then
        { exitCode := none
          events := [.unlinkAttempt, .bindAttempt, .displayCreated] }
      else
        { exitCode := some 1, events := [.unlinkAttempt, .bindAttempt] }
    else
      { exitCode := some 1, events := [.unlinkAttempt] }
  else
    if bindOk then
      { exitCode := none, events := [.bindAttempt, .displayCreated] }
    else
      { exitCode := some 1, events := [.bindAttempt] }

/-- Observable actions of the window-close handler, in source order. -/
inductive CloseEvent where
  | closeAttempt : CloseEvent
  | unlinkAttempt : CloseEvent
  | destroyCalled : CloseEvent
deriving DecidableEq

/-- A cleanup step that either succeeds or raises the given error. -/
def attempt (fails : Bool) (e : String) : Except String Unit :=
  if fails then .error e else .ok ()

/-- A bare `except: pass` block: whatever the wrapped step raised, control
continues normally. -/
def swallow (m : Except String Unit) : Except String Unit :=
  match m with
  | .error _ => .ok ()
  | .ok () => .ok ()

/-- The `on_close` handler (lines 112–121): `sock.close()` in a bare
try/except, `os.unlink(SOCK_PATH)` in a bare try/except, then
`root.destroy()`.  Returns the trace on normal completion and `.error` if an
exception were to escape the handler. -/
def on_close (closeFails unlinkFails : Bool) : Except String (List CloseEvent) :=
  match swallow (attempt closeFails "close failed") with
  | .error e => .error e
  | .ok () =>
    match swallow (attempt unlinkFails "unlink failed") with
    | .error e => .error e
    | .ok () => .ok [.closeAttempt, .unlinkAttempt, .destroyCalled]

/-- The spec's example datagram: `ts_ns = 1_000_000_000`, `rssi = -60`,
`ok = 90`, `retry = 8`, `fail = 2`, packed `"<Q i I I I"`. -/
def sampleBuf : List Nat :=
  [0, 202, 154, 59, 0, 0, 0, 0,
   196, 255, 255, 255,
   90, 0, 0, 0,
   8, 0, 0, 0,
   2, 0, 0, 0]

/-- C1: every byte buffer whose length is not exactly 24 decodes to no
`TelemetrySample`, and the poll cycle treats it as a silent discard, not an
error (no exception escapes `poll_socket`). -/
theorem decode_rejects_wrong_length (render : TelemetrySample → String)
    (label : String) (data : List Nat) (h : data.length ≠ 24) :
    decode data = none ∧
      (poll_socket render label (.dgram data)).raised = false := by
  have hd := decode_eq_none_of_length_ne h
  exact ⟨hd, by simp [poll_socket, hd]⟩

/-- Witness for C1 at a concrete 23-byte buffer. -/
theorem decode_rejects_wrong_length_witness :
    decode (List.replicate 23 0) = none ∧
      (poll_socket (fun _ => "") "w" (.dgram (List.replicate 23 0))).raised = false :=
  decode_rejects_wrong_length (fun _ => "") "w" (List.replicate 23 0) (by decide)

/-- C2: every 24-byte buffer decodes as five little-endian fixed-width
fields in strict order (8-byte unsigned timestamp at offset 0, 4-byte signed
RSSI at 8, 4-byte unsigned ok/retry/fail counts at 12/16/20, no padding —
this is the definition of `decode`), and decode followed by the matching
little-endian `encode` reproduces the identical 24-byte sequence. -/
theorem decode_encode_roundtrip (bs : List Nat) (hlen : bs.length = 24)
    (hb : ∀ b ∈ bs, b < 256) :
    ∃ s, decode bs = some s ∧ encode s = bs :=
  decode_encode bs hlen hb

/-- Witness for C2 at the spec's example datagram. -/
theorem decode_encode_roundtrip_witness :
    ∃ s, decode sampleBuf = some s ∧ encode s = sampleBuf :=
  decode_encode_roundtrip sampleBuf (by decide) (by decide)

/-- C3: `signal_pct` is `2 * (rssi + 100)` clamped to `[0, 100]`; it is 0
for every `rssi ≤ -100`, 100 for every `rssi ≥ 0`, and exactly 100 at
`rssi = -50`. -/
theorem signal_percent_clamped (r : Int) :
    signal_pct r = max 0 (min 100 (2 * (r + 100))) ∧
      (r ≤ -100 → signal_pct r = 0) ∧
      (0 ≤ r → signal_pct r = 100) ∧
      signal_pct (-50) = 100 := by
  have h : signal_pct r = max 0 (min 100 (2 * (r + 100))) := by
    simp only [signal_pct]
    split_ifs <;> omega
  have h50 : signal_pct (-50) = 100 := by decide
  refine ⟨h, fun hr => ?_, fun hr => ?_, h50⟩
  · rw [h]; omega
  · rw [h]; omega

/-- Witness for C3 at `rssi = -120` and `rssi = 5`. -/
theorem signal_percent_clamped_witness :
    signal_pct (-120) = 0 ∧ signal_pct 5 = 100 :=
  ⟨(signal_percent_clamped (-120)).2.1 (by decide),
   (signal_percent_clamped 5).2.2.1 (by decide)⟩

/-- C4: `efficiency_percent` equals `100 * ok / (ok + retry + fail)` when
the sum of the counters is nonzero, equals exactly 0 when the sum is zero
(no division-by-zero fault), and is 80 at `ok = 80, retry = 15, fail = 5`.
Python floats are modelled as exact rationals. -/
theorem efficiency_formula (ok retry fail : Nat) :
    (ok + retry + fail ≠ 0 →
      efficiency_percent ok retry fail
        = 100 * (ok : Rat) / ((ok : Rat) + (retry : Rat) + (fail : Rat))) ∧
      (ok + retry + fail = 0 → efficiency_percent ok retry fail = 0) ∧
      efficiency_percent 80 15 5 = 80 := by
  refine ⟨fun h => ?_, fun h => by simp [efficiency_percent, h], by norm_num [efficiency_percent]⟩
  simp only [efficiency_percent, if_neg h]
  push_cast
  ring

/-- Witness for C4 at `ok = 80, retry = 15, fail = 5` and at the all-zero
counters. -/
theorem efficiency_formula_witness :
    efficiency_percent 80 15 5
        = 100 * ((80 : Nat) : Rat) / (((80 : Nat) : Rat) + ((15 : Nat) : Rat) + ((5 : Nat) : Rat)) ∧
      efficiency_percent 0 0 0 = 0 :=
  ⟨(efficiency_formula 80 15 5).1 (by decide),
   (efficiency_formula 0 0 0).2.1 (by decide)⟩

/-- C5 counterexample: at a receive failure other than would-block (errno
111, with any label state), the claim fails — the error is not absorbed
(the exception escapes `poll_socket`) and the next tick is not scheduled. -/
theorem transient_error_counterexample :
    ¬ ((poll_socket (fun _ => "") "Waiting for data..." (.osErr 111)).raised = false ∧
        PollEvent.scheduleNext
          ∈ (poll_socket (fun _ => "") "Waiting for data..." (.osErr 111)).events) := by
  decide

/-- C5 amended: an OS-level receive failure other than would-block is not
caught inside `poll_socket` — the exception propagates out of the call, the
label is unchanged, and `root.after` is never reached, so the next tick is
not scheduled. -/
theorem transient_error_not_rescheduled (render : TelemetrySample → String)
    (label : String) (e : Nat) :
    poll_socket render label (.osErr e)
      = { label := label, raised := true, events := [.recvAttempt] } := rfl

/-- C6: a datagram of wrong length leaves the poll cycle with the label text
unchanged, no exception, and the next tick scheduled. -/
theorem wrong_length_leaves_display_unchanged (render : TelemetrySample → String)
    (label : String) (data : List Nat) (h : data.length ≠ 24) :
    poll_socket render label (.dgram data)
      = { label := label, raised := false, events := [.recvAttempt, .scheduleNext] } := by
  simp [poll_socket, decode_eq_none_of_length_ne h]

/-- Witness for C6 at a concrete 30-byte garbage datagram. -/
theorem wrong_length_leaves_display_unchanged_witness :
    poll_socket (fun _ => "") "last text" (.dgram (List.replicate 30 0))
      = { label := "last text", raised := false,
          events := [.recvAttempt, .scheduleNext] } :=
  wrong_length_leaves_display_unchanged (fun _ => "") "last text"
    (List.replicate 30 0) (by decide)

/-- C7: every poll cycle performs exactly one receive attempt, which is its
first action; scheduling of the next tick never happens before the cycle's
final action; and one `recvfrom` consumes at most the first queued datagram
(the queue's tail remains), so no backlog is drained in a single tick. -/
theorem one_recv_per_tick_schedule_last (render : TelemetrySample → String)
    (label : String) (r : RecvResult) (q : List (List Nat)) :
    (poll_socket render label r).events.count .recvAttempt = 1 ∧
      (poll_socket render label r).events.head? = some .recvAttempt ∧
      ((poll_socket render label r).events.dropLast.contains .scheduleNext) = false ∧
      (recv_from_queue q).2 = q.tail := by
  have hq : (recv_from_queue q).2 = q.tail := by cases q <;> rfl
  refine ⟨?_, ?_, ?_, hq⟩ <;>
    cases r with
    | wouldBlock => rfl
    | osErr e => rfl
    | dgram data => rcases hdec : decode data with _ | s <;> simp [poll_socket, hdec]

/-- C8: at startup, a pre-existing filesystem object at the bind path is
removed first (the unlink attempt is the first action); failure to remove
it, or failure to bind, prints a message and calls `sys.exit(1)` (a non-zero
status) before the display surface is created; and no steady-state poll
cycle ever calls `sys.exit`. -/
theorem startup_fatal_errors (p u b : Bool) :
    (p = true → (startup p u b).events.head? = some .unlinkAttempt) ∧
      (p = true → u = false → (startup p u b).exitCode = some 1 ∧
        ((startup p u b).events.contains .displayCreated) = false) ∧
      (b = false → (startup p u b).exitCode = some 1 ∧
        ((startup p u b).events.contains .displayCreated) = false) ∧
      (∀ render label r, ((poll_socket render label r).events.contains .exitProcess) = false) := by
  refine ⟨?_, ?_, ?_, ?_⟩
  · cases p <;> cases u <;> cases b <;> simp [startup]
  · cases p <;> cases u <;> cases b <;> simp [startup]
  · cases p <;> cases u <;> cases b <;> simp [startup]
  · intro render label r
    cases r with
    | wouldBlock => rfl
    | osErr e => rfl
    | dgram data => rcases hdec : decode data with _ | s <;> simp [poll_socket, hdec]

/-- Witness for C8: a stale path that cannot be unlinked, and a failing
bind, each exit with status 1 before the display is created. -/
theorem startup_fatal_errors_witness :
    (startup true false true).exitCode = some 1 ∧
      ((startup true false true).events.contains .displayCreated) = false ∧
      (startup true true false).exitCode = some 1 :=
  ⟨((startup_fatal_errors true false true).2.1 rfl rfl).1,
   ((startup_fatal_errors true false true).2.1 rfl rfl).2,
   ((startup_fatal_errors true true false).2.2.1 rfl).1⟩

/-- C9: for every combination of close and unlink failures, the shutdown
handler swallows the errors and still completes: both cleanup attempts are
made, `root.destroy()` is reached, and no exception escapes. -/
theorem close_is_best_effort (closeFails unlinkFails : Bool) :
    on_close closeFails unlinkFails
      = .ok [.closeAttempt, .unlinkAttempt, .destroyCalled] := by
  cases closeFails <;> cases unlinkFails <;> rfl

/-- C10: the computed efficiency always lies in `[0, 100]` with no clamping
in the code, because `ok` never exceeds `ok + retry + fail`. -/
theorem efficiency_within_bounds (ok retry fail : Nat) :
    0 ≤ efficiency_percent ok retry fail ∧
      efficiency_percent ok retry fail ≤ 100 := by
  by_cases h : ok + retry + fail = 0
  · simp [efficiency_percent, h]
  · have htot : (0 : Rat) < ((ok + retry + fail : Nat) : Rat) := by
      exact_mod_cast Nat.pos_of_ne_zero h
    have hdiv : (ok : Rat) / ((ok + retry + fail : Nat) : Rat) ≤ 1 := by
      rw [div_le_one htot]
      exact_mod_cast (by omega : ok ≤ ok + retry + fail)
    have hnn : (0 : Rat) ≤ (ok : Rat) / ((ok + retry + fail : Nat) : Rat) :=
      div_nonneg (by positivity) (le_of_lt htot)
    constructor
    · simp only [efficiency_percent, if_neg h]
      positivity
    · simp only [efficiency_percent, if_neg h]
      calc (ok : Rat) / ((ok + retry + fail : Nat) : Rat) * 100
          ≤ 1 * 100 := mul_le_mul_of_nonneg_right hdiv (by norm_num)
        _ = 100 := by norm_num

end WifiQos
